import Mathlib

/-!
Verification development for `csvw/ashe-example/main.go`: a one-shot batch
transform that fetches a dataset-metadata document, re-projects it into a
CSV-on-the-Web (CSVW) metadata document and prints it as JSON.

The Go code is shallowly embedded: pure functions become Lean functions, the
network effects of `getMetadata` are parameterised by their outcomes, Go
pointers become `Option`, and a Go runtime panic becomes an explicit error
value.  Go's library string primitives used by the program
(`strings.Split` with a one-character separator, `strings.ToLower` on ASCII
data, `strconv.Atoi`) are modelled by structurally recursive functions over
the character list of the string so that they evaluate inside proofs.
-/

set_option maxRecDepth 100000

namespace Ashe

/-! ## Models of the Go string primitives used by the program -/

/-- Model of `strings.Split(s, sep)` for a one-character separator `sep`
(the program only ever splits on `","` and `"_"`): split around each
occurrence of the separator.  Always returns at least one piece. -/
def splitOnChar (sep : Char) : List Char → List (List Char)
  | [] => [[]]
  | c :: rest =>
    match splitOnChar sep rest with
    | [] => [[]]
    | cur :: done => if c = sep then [] :: cur :: done else (c :: cur) :: done

/-- Split a string as `strings.Split` does, for a one-character separator. -/
def goSplit (sep : Char) (s : String) : List String :=
  (splitOnChar sep s.toList).map String.mk

/-- Model of `strings.ToLower` (the data it is applied to here is ASCII,
where Go's Unicode lowering agrees with per-character ASCII lowering). -/
def goToLower (s : String) : String :=
  String.mk (s.toList.map Char.toLower)

/-- Value of a decimal digit character, if it is one. -/
def digVal (c : Char) : Option Nat :=
  if '0' ≤ c ∧ c ≤ '9' then some (c.toNat - '0'.toNat) else none

/-- Accumulate a digit string into a natural number; `none` on a non-digit. -/
def digitsToNat (acc : Nat) : List Char → Option Nat
  | [] => some acc
  | c :: rest =>
    match digVal c with
    | none => none
    | some d => digitsToNat (acc * 10 + d) rest

/-- A non-empty all-digit string, as a natural number. -/
def digitsToNatNE (l : List Char) : Option Nat :=
  match l with
  | [] => none
  | _ :: _ => digitsToNat 0 l

/-- Model of `strconv.Atoi`: an optional sign followed by at least one
decimal digit (machine-word overflow is not modelled; the program only
parses the two-character literal `"2"`). -/
def goAtoi (s : String) : Option Int :=
  match s.toList with
  | '+' :: rest => (digitsToNatNE rest).map Int.ofNat
  | '-' :: rest => (digitsToNatNE rest).map fun n => -(Int.ofNat n)
  | l => (digitsToNatNE l).map Int.ofNat

/-! ## The external metadata schema (`dp-dataset-api` models)

Modelled from the spec: the consumed metadata JSON shape is an
externally-defined collaborator interface (title, description, dimensions,
publisher, contacts, downloads, alerts, usage notes); only the fields this
program reads are modelled.  Go's `Type` field names are rendered `type'`
because `Type` is reserved in Lean. -/

structure ContactDetails where
  Email : String
  Name : String
  Telephone : String
deriving DecidableEq

structure Publisher where
  HRef : String
  Name : String
  type' : String
deriving DecidableEq

structure CodeList where
  Name : String
  Label : String
  Description : String
  HRef : String
deriving DecidableEq

structure Alert where
  type' : String
  Description : String
deriving DecidableEq

structure UsageNote where
  Title : String
  Note : String
deriving DecidableEq

structure DownloadObject where
  HRef : String
deriving DecidableEq

structure DownloadList where
  CSV : DownloadObject
deriving DecidableEq

structure Metadata where
  Title : String
  Description : String
  ReleaseDate : String
  Theme : String
  License : String
  ReleaseFrequency : String
  UnitOfMeasure : String
  Contacts : List ContactDetails
  Publisher : Publisher
  Dimensions : List CodeList
  Downloads : DownloadList
  Alerts : Option (List Alert)
  UsageNotes : Option (List UsageNote)
deriving DecidableEq

/-- The zero value of the metadata document (`var md models.Metadata`):
every string empty, every slice nil, every pointer nil. -/
def zeroMetadata : Metadata :=
  { Title := "", Description := "", ReleaseDate := "", Theme := "", License := ""
    ReleaseFrequency := "", UnitOfMeasure := "", Contacts := []
    Publisher := { HRef := "", Name := "", type' := "" }
    Dimensions := []
    Downloads := { CSV := { HRef := "" } }
    Alerts := none, UsageNotes := none }

/-- The zero value of `models.CodeList`, silently substituted when no
dimension name matches a header token. -/
def zeroCodeList : CodeList :=
  { Name := "", Label := "", Description := "", HRef := "" }

/-! ## The produced CSVW document (types from `main.go`) -/

/-- A value stored in a `Column` map: the program only ever stores strings
and booleans in its `map[string]interface{}` columns. -/
inductive ColumnValue where
  | str : String → ColumnValue
  | bool : Bool → ColumnValue
deriving DecidableEq

/-- Go's `type Column map[string]interface{}`: an attribute map, embedded as the
association list of the insertions the program performs (a Go map is
unordered; all claims below read it only through key lookup). -/
abbrev Column := List (String × ColumnValue)

/-- Key lookup in a column's attribute map. -/
def Column.attr : Column → String → Option ColumnValue
  | [], _ => none
  | (k, v) :: rest, key => if k = key then some v else Column.attr rest key

/-- The attribute names present in a column, in insertion order. -/
def Column.keys (c : Column) : List String :=
  c.map Prod.fst

structure Creator where
  Name : String
  type' : String
  ID : String
deriving DecidableEq

structure Columns where
  C : List Column
  About : String
deriving DecidableEq

structure Note where
  type' : String
  Target : String
  Body : String
  Motivation : String
deriving DecidableEq

structure CSVW where
  Context : String
  URL : String
  Title : String
  Description : String
  Issued : String
  Creator : Creator
  Contact : ContactDetails
  TableSchema : Columns
  Theme : String
  License : String
  Frequency : String
  Notes : List Note
deriving DecidableEq

/-! ## The addNotes function -/

/-- Go's `addNotes(url, alerts, notes)`: appends one note per alert (target the
bare URL), then one note per usage note (target the URL plus the literal
fragment `#col=need-to-store`).  `Motivation` is never assigned, so it
keeps its zero value `""`. -/
def addNotes (url : String) (alerts : List Alert) (notes : List UsageNote) : List Note :=
  (alerts.map fun a =>
    { type' := a.type', Body := a.Description, Target := url, Motivation := "" })
    ++ (notes.map fun u =>
    { type' := u.Title, Body := u.Note, Target := url ++ "#col=need-to-store", Motivation := "" })

/-! ## The populateColumns function -/

/-- The hardcoded V4 header literal from `populateColumns`. -/
def headerRow : String :=
  "V4_2,Data marking,Coefficient of variation,Time_codelist,Time,ashe-geography,Geography,Hours_codelist,Hours,Sex_codelist,Sex,WorkingPattern_codelist,WorkingPattern,Statistics_codelist,Statistics"

/-- The first matching dimension (`for _, d := range dims { if d.Name == dimHeader ... }`),
falling back to the zero value when none matches. -/
def findDim (dims : List CodeList) (nm : String) : CodeList :=
  (dims.find? fun d => d.Name == nm).getD zeroCodeList

/-- The dimension loop of `populateColumns`: consume the remaining header
tokens two at a time (code header, dimension header), emitting a code
column and a label column per pair.  `none` models the index-out-of-range
panic Go would raise on an odd tail. -/
def dimLoop (dims : List CodeList) (csvURL : String) (offset : Nat) :
    Nat → List String → Option (List Column)
  | _, [] => some []
  | _, [_] => none
  | i, codeHeader :: dh :: rest =>
    let dimHeader := goToLower dh
    let dim := findDim dims dimHeader
    let codeCol : Column :=
      [("name", .str codeHeader),
       ("@id", .str (csvURL ++ "#col=" ++ toString (offset + i))),
       ("valueURL", .str (dim.HRef ++ "/codes/\x7b" ++ codeHeader ++ "\x7d")),
       ("required", .bool true)]
    let labelCol : Column :=
      [("titles", .str dim.Label),
       ("name", .str dimHeader),
       ("description", .str dim.Description),
       ("@id", .str (csvURL ++ "#col=" ++ toString (offset + i + 1)))]
    match dimLoop dims csvURL offset (i + 2) rest with
    | none => none
    | some cols => some (codeCol :: labelCol :: cols)

/-- Go's `populateColumns(dims, unit, csvURL)`: split the hardcoded header on
commas, parse the `name_offset` first token, emit the observation column,
`offset` data-marking columns and the dimension code/label pairs.  `none`
models the `panic("not valid v4 header")` aborts and the slice/index
panics of out-of-range header access (none of which fire on the fixed
literal). -/
def populateColumns (dims : List CodeList) (unit csvURL : String) : Option (List Column) :=
  let header := goSplit ',' headerRow
  let parts := goSplit '_' (header.headD "")
  if parts.length ≠ 2 then none
  else
    match goAtoi (parts.getD 1 "") with
    | none => none
    | some off =>
      let obs : Column :=
        [("titles", .str (header.headD "")),
         ("name", .str unit),
         ("datatype", .str "number"),
         ("required", .bool true),
         ("@id", .str (csvURL ++ "#col=0"))]
      if off + 1 < 0 then none
      else
        let offN := (off + 1).toNat
        if header.length < offN then none
        else
          let markings : List Column :=
            (List.range off.toNat).map fun k =>
              [("titles", .str (header.getD (k + 1) "")),
               ("@id", .str (csvURL ++ "#col=" ++ toString (k + 1)))]
          match dimLoop dims csvURL offN 0 (header.drop offN) with
          | none => none
          | some dcols => some (obs :: (markings ++ dcols))

/-! ## The assignTopLevel function -/

/-- The two run-time panics reachable from `assignTopLevel`. -/
inductive GoPanic where
  | nilDereference
  | indexOutOfRange
deriving DecidableEq

/-- Go's `assignTopLevel(m *models.Metadata)`: a 1:1 field copy into a fresh
CSVW document.  The `*models.Metadata` pointer is `Option Metadata`;
dereferencing nil panics, and `m.Contacts[0]` panics on an empty contacts
slice.  `TableSchema` and `Notes` keep their zero values (they are filled
in later by `main`). -/
def assignTopLevel : Option Metadata → Except GoPanic CSVW
  | none => .error .nilDereference
  | some m =>
    match m.Contacts with
    | [] => .error .indexOutOfRange
    | c :: _ =>
      .ok
        { Context := "http://www.w3.org/ns/csvw"
          URL := m.Downloads.CSV.HRef
          Title := m.Title
          Description := m.Description
          Issued := m.ReleaseDate
          Theme := m.Theme
          License := m.License
          Frequency := m.ReleaseFrequency
          Contact := c
          Creator :=
            { Name := m.Publisher.Name
              type' := m.Publisher.type'
              ID := m.Publisher.HRef }
          TableSchema := { C := [], About := "" }
          Notes := [] }

/-! ## The getMetadata function -/

/-- The outcome of the request/transport/body-read effects of
`getMetadata`, abstracted as an input: request construction may fail,
`client.Do` may fail, `ioutil.ReadAll` may fail, or the full body is read. -/
inductive FetchOutcome where
  | reqError
  | doError
  | readError
  | body : String → FetchOutcome

/-- What `getMetadata` does: abort the process (`log.Fatal`) or return a
`*models.Metadata` pointer (possibly nil). -/
inductive GetResult where
  | fatal
  | ret : Option Metadata → GetResult
deriving DecidableEq

/-- Go's `getMetadata(url)`, with the network effects given by `outcome` and
`json.Unmarshal` of the external schema abstracted as `decode` (`none`
models a decode error, which the code only logs, leaving `md` at its zero
value and returning `&md`).  A body-read error returns the nil pointer. -/
def getMetadata (outcome : FetchOutcome) (decode : String → Option Metadata) : GetResult :=
  match outcome with
  | .reqError => .fatal
  | .doError => .fatal
  | .readError => .ret none
  | .body b =>
    match decode b with
    | some md => .ret (some md)
    | none => .ret (some zeroMetadata)

/-! ## JSON marshaling in main, and parsing back

The JSON value produced by `encoding/json` for the CSVW document, following
the struct tags of `main.go`.  A Go map is unordered, so the `Column`
attribute maps are emitted as the association pairs of the embedding (Go's
canonical key-sorted byte rendering is abstracted away: as maps the two
agree, and every claim reads columns through key lookup only).  Parsing
back mirrors `json.Unmarshal`: fields are found by tag name, a missing
field keeps its zero value, a wrongly-typed field is an error. -/

inductive Json where
  | bool : Bool → Json
  | str : String → Json
  | arr : List Json → Json
  | obj : List (String × Json) → Json

/-- The JSON value of a column attribute (Go stores only strings and
booleans in its column maps). -/
def ColumnValue.toJson : ColumnValue → Json
  | .str s => .str s
  | .bool b => .bool b

/-- Reading a column attribute value back (`interface\x7b\x7d` receives the
decoded string or boolean). -/
def ColumnValue.fromJson : Json → Option ColumnValue
  | .str s => some (.str s)
  | .bool b => some (.bool b)
  | _ => none

/-- Key lookup among the members of a JSON object. -/
def jLookup : List (String × Json) → String → Option Json
  | [], _ => none
  | (k, v) :: rest, key => if k = key then some v else jLookup rest key

/-- Decode every element of a list, failing if any element fails. -/
def traverseOpt {α β : Type} (f : α → Option β) : List α → Option (List β)
  | [] => some []
  | x :: xs =>
    match f x with
    | none => none
    | some y =>
      match traverseOpt f xs with
      | none => none
      | some ys => some (y :: ys)

/-- A string field: missing keeps the zero value `""`, wrongly typed is a
decode error. -/
def getStr (kvs : List (String × Json)) (key : String) : Option String :=
  match jLookup kvs key with
  | none => some ""
  | some (.str s) => some s
  | some _ => none

def columnToJson (c : Column) : Json :=
  .obj (c.map fun kv => (kv.1, ColumnValue.toJson kv.2))

def columnFromJson : Json → Option Column
  | .obj kvs =>
    traverseOpt
      (fun kv =>
        match ColumnValue.fromJson kv.2 with
        | some v => some (kv.1, v)
        | none => none)
      kvs
  | _ => none

def noteToJson (n : Note) : Json :=
  .obj [("type", .str n.type'), ("target", .str n.Target),
        ("body", .str n.Body), ("motivation", .str n.Motivation)]

def noteFromJson : Json → Option Note
  | .obj kvs =>
    match getStr kvs "type", getStr kvs "target", getStr kvs "body",
        getStr kvs "motivation" with
    | some t, some tg, some b, some mo =>
      some { type' := t, Target := tg, Body := b, Motivation := mo }
    | _, _, _, _ => none
  | _ => none

def contactToJson (c : ContactDetails) : Json :=
  .obj [("email", .str c.Email), ("name", .str c.Name), ("telephone", .str c.Telephone)]

def contactFromJson : Json → Option ContactDetails
  | .obj kvs =>
    match getStr kvs "email", getStr kvs "name", getStr kvs "telephone" with
    | some e, some n, some t => some { Email := e, Name := n, Telephone := t }
    | _, _, _ => none
  | _ => none

def creatorToJson (c : Creator) : Json :=
  .obj [("name", .str c.Name), ("@type", .str c.type'), ("@id", .str c.ID)]

def creatorFromJson : Json → Option Creator
  | .obj kvs =>
    match getStr kvs "name", getStr kvs "@type", getStr kvs "@id" with
    | some n, some t, some i => some { Name := n, type' := t, ID := i }
    | _, _, _ => none
  | _ => none

def columnsToJson (cs : Columns) : Json :=
  .obj [("columns", .arr (cs.C.map columnToJson)), ("aboutUrl", .str cs.About)]

def columnsFromJson : Json → Option Columns
  | .obj kvs =>
    match jLookup kvs "columns", getStr kvs "aboutUrl" with
    | some (.arr l), some a =>
      match traverseOpt columnFromJson l with
      | some cols => some { C := cols, About := a }
      | none => none
    | none, some a => some { C := [], About := a }
    | _, _ => none
  | _ => none

/-- The nested publisher field: missing keeps the zero value. -/
def getCreator (kvs : List (String × Json)) : Option Creator :=
  match jLookup kvs "dct:publisher" with
  | none => some { Name := "", type' := "", ID := "" }
  | some j => creatorFromJson j

/-- The nested contact field: missing keeps the zero value. -/
def getContact (kvs : List (String × Json)) : Option ContactDetails :=
  match jLookup kvs "dcat:contactPoint" with
  | none => some { Email := "", Name := "", Telephone := "" }
  | some j => contactFromJson j

/-- The nested table-schema field: missing keeps the zero value. -/
def getSchema (kvs : List (String × Json)) : Option Columns :=
  match jLookup kvs "tableSchema" with
  | none => some { C := [], About := "" }
  | some j => columnsFromJson j

/-- The notes field: missing keeps the nil slice. -/
def getNotes (kvs : List (String × Json)) : Option (List Note) :=
  match jLookup kvs "notes" with
  | none => some []
  | some (.arr l) => traverseOpt noteFromJson l
  | some _ => none

/-- Result of `json.Marshal` of the CSVW document, with the struct tags of `main.go`
in declaration order. -/
def csvwToJson (c : CSVW) : Json :=
  .obj [("@context", .str c.Context),
        ("url", .str c.URL),
        ("dct:title", .str c.Title),
        ("dct:description", .str c.Description),
        ("dct:issued", .str c.Issued),
        ("dct:publisher", creatorToJson c.Creator),
        ("dcat:contactPoint", contactToJson c.Contact),
        ("tableSchema", columnsToJson c.TableSchema),
        ("dcat:theme", .str c.Theme),
        ("dct:license", .str c.License),
        ("dct:accrualPeriodicity", .str c.Frequency),
        ("notes", .arr (c.Notes.map noteToJson))]

/-- Result of `json.Unmarshal` of a CSVW document from a JSON value. -/
def csvwFromJson : Json → Option CSVW
  | .obj kvs => do
    let context ← getStr kvs "@context"
    let url ← getStr kvs "url"
    let title ← getStr kvs "dct:title"
    let description ← getStr kvs "dct:description"
    let issued ← getStr kvs "dct:issued"
    let creator ← getCreator kvs
    let contact ← getContact kvs
    let schema ← getSchema kvs
    let theme ← getStr kvs "dcat:theme"
    let license ← getStr kvs "dct:license"
    let freq ← getStr kvs "dct:accrualPeriodicity"
    let notes ← getNotes kvs
    some { Context := context, URL := url, Title := title, Description := description
           Issued := issued, Creator := creator, Contact := contact, TableSchema := schema
           Theme := theme, License := license, Frequency := freq, Notes := notes }
  | _ => none

/-! ## Evaluation of populateColumns on the fixed header -/

/-- Attribute names of the observation column (`titles`,`name`,`datatype`,`required`,`@id`). -/
def obsKeys : List String := ["titles", "name", "datatype", "required", "@id"]

/-- Attribute names of a data-marking column (`titles`,`@id`). -/
def markingKeys : List String := ["titles", "@id"]

/-- Attribute names of a dimension code column (`name`,`@id`,`valueURL`,`required`). -/
def codeKeys : List String := ["name", "@id", "valueURL", "required"]

/-- Attribute names of a dimension label column (`titles`,`name`,`description`,`@id`). -/
def labelKeys : List String := ["titles", "name", "description", "@id"]

/-- The column role expected at position `j` of the synthesized list:
position 0 the observation column, positions 1–2 the data-marking columns,
then alternating code/label columns of the six dimension pairs. -/
def roleKeys (j : Nat) : List String :=
  if j = 0 then obsKeys
  else if j ≤ 2 then markingKeys
  else if (j - 3) % 2 = 0 then codeKeys
  else labelKeys

/-- The six dimension-header tokens of the fixed header, in order. -/
def dimTokens : List String :=
  ["Time", "Geography", "Hours", "Sex", "WorkingPattern", "Statistics"]

/-- The six code-list tokens of the fixed header, in order. -/
def codeTokens : List String :=
  ["Time_codelist", "ashe-geography", "Hours_codelist", "Sex_codelist",
   "WorkingPattern_codelist", "Statistics_codelist"]

/-- The lowercased `k`-th dimension-header token. -/
def loTok (k : Nat) : String := goToLower (dimTokens.getD k "")

/-- The `k`-th code-list token. -/
def coTok (k : Nat) : String := codeTokens.getD k ""

/-- The code/label column pair emitted for one dimension token pair:
`codeHeader` the code-list token, `nm` the lowercased dimension token,
`i`/`j` the running positions. -/
def expectedPair (dims : List CodeList) (csvURL codeHeader nm : String) (i j : Nat) :
    List Column :=
  [[("name", .str codeHeader),
    ("@id", .str (csvURL ++ "#col=" ++ toString i)),
    ("valueURL", .str ((findDim dims nm).HRef ++ "/codes/\x7b" ++ codeHeader ++ "\x7d")),
    ("required", .bool true)],
   [("titles", .str (findDim dims nm).Label),
    ("name", .str nm),
    ("description", .str (findDim dims nm).Description),
    ("@id", .str (csvURL ++ "#col=" ++ toString j))]]

/-- The full column list `populateColumns` produces for the fixed header:
one observation column, two marking columns, six code/label pairs. -/
def expectedCols (dims : List CodeList) (unit csvURL : String) : List Column :=
  [[("titles", .str "V4_2"), ("name", .str unit), ("datatype", .str "number"),
    ("required", .bool true), ("@id", .str (csvURL ++ "#col=0"))],
   [("titles", .str "Data marking"), ("@id", .str (csvURL ++ "#col=" ++ toString 1))],
   [("titles", .str "Coefficient of variation"), ("@id", .str (csvURL ++ "#col=" ++ toString 2))]]
  ++ expectedPair dims csvURL "Time_codelist" "time" 3 4
  ++ expectedPair dims csvURL "ashe-geography" "geography" 5 6
  ++ expectedPair dims csvURL "Hours_codelist" "hours" 7 8
  ++ expectedPair dims csvURL "Sex_codelist" "sex" 9 10
  ++ expectedPair dims csvURL "WorkingPattern_codelist" "workingpattern" 11 12
  ++ expectedPair dims csvURL "Statistics_codelist" "statistics" 13 14

/-- On the fixed header literal, `populateColumns` succeeds and produces
exactly the fifteen columns of `expectedCols`, for every input. -/
theorem populateColumns_eq (dims : List CodeList) (unit csvURL : String) :
    populateColumns dims unit csvURL = some (expectedCols dims unit csvURL) := rfl

/-- C1: for the fixed header literal, `populateColumns` returns, for every
dimension list, unit string and CSV URL, exactly 15 column descriptors —
1 observation column, then 2 data-marking columns, then 6 code/label
pairs, in that fixed order — and the positional identifier of descriptor
`j` is `csvURL ++ "#col=" ++ toString j`, so the `@id` position suffixes
are the gap-free strictly increasing sequence 0,1,…,14. -/
theorem populateColumns_fixed_shape (dims : List CodeList) (unit csvURL : String)
    (j : Nat) (hj : j < 15) :
    ∃ cols, populateColumns dims unit csvURL = some cols ∧
      cols.length = 15 ∧
      Column.keys (cols.getD j []) = roleKeys j ∧
      Column.attr (cols.getD j []) "@id" =
        some (.str (csvURL ++ "#col=" ++ toString j)) := by
  refine ⟨expectedCols dims unit csvURL, populateColumns_eq dims unit csvURL, rfl, ?_, ?_⟩
  all_goals interval_cases j <;> (try rfl) <;> (rw [String.append_assoc]; rfl)

/-- C1 witness. -/
theorem populateColumns_fixed_shape_witness :
    (0 : Nat) < 15 ∧
      ∃ cols, populateColumns [] "sterling" "http://x/d.csv" = some cols ∧
        cols.length = 15 ∧
        Column.keys (cols.getD 0 []) = roleKeys 0 ∧
        Column.attr (cols.getD 0 []) "@id" =
          some (.str ("http://x/d.csv" ++ "#col=" ++ toString 0)) :=
  ⟨by decide, populateColumns_fixed_shape [] "sterling" "http://x/d.csv" 0 (by decide)⟩

/-- A successful first-match lookup determines `findDim`. -/
theorem findDim_of_found (dims : List CodeList) (nm : String) (d : CodeList)
    (h : dims.find? (fun x => x.Name == nm) = some d) : findDim dims nm = d := by
  simp [findDim, h]

/-- When no stored dimension name equals the looked-up name, `findDim`
silently substitutes the zero-valued dimension. -/
theorem findDim_of_none (dims : List CodeList) (nm : String)
    (h : ∀ d ∈ dims, d.Name ≠ nm) : findDim dims nm = zeroCodeList := by
  have hn : dims.find? (fun x => x.Name == nm) = none := by
    apply List.find?_eq_none.mpr
    intro d hd
    simpa using h d hd
  simp [findDim, hn]

/-- The label column emitted at position `4 + 2k` for the `k`-th pair. -/
theorem expectedCols_label (dims : List CodeList) (unit csvURL : String)
    (k : Nat) (hk : k < 6) :
    (expectedCols dims unit csvURL).getD (4 + 2 * k) [] =
      [("titles", .str (findDim dims (loTok k)).Label),
       ("name", .str (loTok k)),
       ("description", .str (findDim dims (loTok k)).Description),
       ("@id", .str (csvURL ++ "#col=" ++ toString (4 + 2 * k)))] := by
  interval_cases k <;> rfl

/-- The code column emitted at position `3 + 2k` for the `k`-th pair. -/
theorem expectedCols_code (dims : List CodeList) (unit csvURL : String)
    (k : Nat) (hk : k < 6) :
    (expectedCols dims unit csvURL).getD (3 + 2 * k) [] =
      [("name", .str (coTok k)),
       ("@id", .str (csvURL ++ "#col=" ++ toString (3 + 2 * k))),
       ("valueURL", .str ((findDim dims (loTok k)).HRef ++ "/codes/\x7b" ++ coTok k ++ "\x7d")),
       ("required", .bool true)] := by
  interval_cases k <;> rfl

/-- C2: for every dimension list, when a stored dimension's name equals the
lowercased `k`-th dimension-header token, the emitted label column carries
that entry's label and description; when no stored name matches,
`populateColumns` still succeeds and the label column's `titles` and
`description` are empty strings, the code column's `valueURL` being built
from an empty `HRef`. -/
theorem populateColumns_label_lookup (dims : List CodeList) (unit csvURL : String)
    (k : Nat) (hk : k < 6) :
    ∃ cols, populateColumns dims unit csvURL = some cols ∧
      (∀ d, dims.find? (fun x => x.Name == loTok k) = some d →
        Column.attr (cols.getD (4 + 2 * k) []) "titles" = some (.str d.Label) ∧
        Column.attr (cols.getD (4 + 2 * k) []) "description" = some (.str d.Description)) ∧
      ((∀ d ∈ dims, d.Name ≠ loTok k) →
        Column.attr (cols.getD (4 + 2 * k) []) "titles" = some (.str "") ∧
        Column.attr (cols.getD (4 + 2 * k) []) "description" = some (.str "") ∧
        Column.attr (cols.getD (3 + 2 * k) []) "valueURL" =
          some (.str ("/codes/\x7b" ++ coTok k ++ "\x7d"))) := by
  refine ⟨expectedCols dims unit csvURL, populateColumns_eq dims unit csvURL, ?_, ?_⟩
  · intro d hd
    have hfd : findDim dims (loTok k) = d := findDim_of_found _ _ _ hd
    rw [expectedCols_label dims unit csvURL k hk, hfd]
    exact ⟨rfl, rfl⟩
  · intro hnone
    have hfd : findDim dims (loTok k) = zeroCodeList := findDim_of_none _ _ hnone
    rw [expectedCols_label dims unit csvURL k hk,
      expectedCols_code dims unit csvURL k hk, hfd]
    exact ⟨rfl, rfl, rfl⟩

/-- C2 witness: a dimension named `"time"` is matched for the token
`"Time"` and its label and description are copied into the label column. -/
theorem populateColumns_label_lookup_witness :
    ∃ cols,
      populateColumns [{ Name := "time", Label := "L", Description := "D", HRef := "http://h" }]
          "u" "c" = some cols ∧
        Column.attr (cols.getD 4 []) "titles" = some (.str "L") ∧
        Column.attr (cols.getD 4 []) "description" = some (.str "D") := by
  obtain ⟨cols, h1, h2, -⟩ :=
    populateColumns_label_lookup
      [{ Name := "time", Label := "L", Description := "D", HRef := "http://h" }] "u" "c" 0
      (by decide)
  obtain ⟨ht, hd⟩ := h2 { Name := "time", Label := "L", Description := "D", HRef := "http://h" }
    (by decide)
  exact ⟨cols, h1, ht, hd⟩

/-- C3 counterexample: a stored dimension named `"TIME"` differs from the
header token `"Time"` only in letter case, yet it is not matched — the
emitted label column's `titles` is empty instead of the stored label, and
the code column's `valueURL` is built from the empty `HRef`, not the
stored one. -/
theorem dim_lookup_not_case_insensitive :
    goToLower "TIME" = goToLower "Time" ∧ "TIME" ≠ "Time" ∧
    Column.attr
      (((populateColumns
            [{ Name := "TIME", Label := "Time label", Description := "dsc", HRef := "http://codes" }]
            "u" "http://x").getD []).getD 4 []) "titles" = some (.str "") ∧
    Column.attr
      (((populateColumns
            [{ Name := "TIME", Label := "Time label", Description := "dsc", HRef := "http://codes" }]
            "u" "http://x").getD []).getD 3 []) "valueURL" =
      some (.str "/codes/\x7bTime_codelist\x7d") := by
  exact ⟨rfl, by decide, by decide, by decide⟩

/-- C3 amended: the lookup lowercases only the header token — a stored
dimension is used for the `k`-th pair exactly when its name equals the
lowercase form of that token, so lowercase stored names match tokens of
any casing, while stored names containing an uppercase letter are never
matched. -/
theorem dim_lookup_matches_lowercased_token (d : CodeList) (unit csvURL : String)
    (k : Nat) (hk : k < 6) :
    ∃ cols, populateColumns [d] unit csvURL = some cols ∧
      (d.Name = loTok k →
        Column.attr (cols.getD (4 + 2 * k) []) "titles" = some (.str d.Label)) ∧
      (d.Name ≠ loTok k →
        Column.attr (cols.getD (4 + 2 * k) []) "titles" = some (.str "")) := by
  refine ⟨expectedCols [d] unit csvURL, populateColumns_eq [d] unit csvURL, ?_, ?_⟩
  · intro he
    have hf : [d].find? (fun x => x.Name == loTok k) = some d := by
      simp [List.find?_cons, he]
    have hfd : findDim [d] (loTok k) = d := findDim_of_found _ _ _ hf
    rw [expectedCols_label [d] unit csvURL k hk, hfd]
    rfl
  · intro hne
    have hfd : findDim [d] (loTok k) = zeroCodeList := by
      apply findDim_of_none
      intro x hx
      have : x = d := by simpa using hx
      simpa [this] using hne
    rw [expectedCols_label [d] unit csvURL k hk, hfd]
    rfl

/-- C3 amended witness: a lowercase stored name is matched for the
differently-cased token, an uppercase one is not. -/
theorem dim_lookup_matches_lowercased_token_witness :
    ∃ cols,
      populateColumns [{ Name := "sex", Label := "SexL", Description := "dd", HRef := "hh" }]
          "u" "c" = some cols ∧
        Column.attr (cols.getD (4 + 2 * 3) []) "titles" = some (.str "SexL") := by
  obtain ⟨cols, h1, h2, -⟩ :=
    dim_lookup_matches_lowercased_token
      { Name := "sex", Label := "SexL", Description := "dd", HRef := "hh" } "u" "c" 3 (by decide)
  exact ⟨cols, h1, h2 (by decide)⟩

/-- C4: `addNotes` returns exactly `N + M` notes for `N` alerts and `M`
usage notes — the first `N` are the alerts in their original order with
`Target` the bare URL, the last `M` the usage notes in their original
order with `Target` the URL suffixed by the literal fragment marker
`#col=need-to-store`. -/
theorem addNotes_shape (url : String) (alerts : List Alert) (notes : List UsageNote) :
    (addNotes url alerts notes).length = alerts.length + notes.length ∧
    (∀ i, ∀ hi : i < alerts.length,
      (addNotes url alerts notes)[i]? =
        some { type' := alerts[i].type', Target := url,
               Body := alerts[i].Description, Motivation := "" }) ∧
    (∀ j, ∀ hj : j < notes.length,
      (addNotes url alerts notes)[alerts.length + j]? =
        some { type' := notes[j].Title, Target := url ++ "#col=need-to-store",
               Body := notes[j].Note, Motivation := "" }) := by
  refine ⟨by simp [addNotes], ?_, ?_⟩
  · intro i hi
    rw [addNotes, List.getElem?_append,
      if_pos (by simpa using hi), List.getElem?_map, List.getElem?_eq_getElem hi]
    rfl
  · intro j hj
    rw [addNotes, List.getElem?_append,
      if_neg (by simp only [List.length_map]; omega), List.getElem?_map]
    simp only [List.length_map]
    rw [show alerts.length + j - alerts.length = j from by omega,
      List.getElem?_eq_getElem hj]
    rfl

/-- C4 witness. -/
theorem addNotes_shape_witness :
    (addNotes "http://u" [{ type' := "alert", Description := "ad" }]
        [{ Title := "un", Note := "nn" }]).length = 1 + 1 ∧
    (addNotes "http://u" [{ type' := "alert", Description := "ad" }]
        [{ Title := "un", Note := "nn" }])[0]? =
      some { type' := "alert", Target := "http://u", Body := "ad", Motivation := "" } ∧
    (addNotes "http://u" [{ type' := "alert", Description := "ad" }]
        [{ Title := "un", Note := "nn" }])[1 + 0]? =
      some { type' := "un", Target := "http://u" ++ "#col=need-to-store",
             Body := "nn", Motivation := "" } := by
  obtain ⟨h1, h2, h3⟩ := addNotes_shape "http://u" [{ type' := "alert", Description := "ad" }]
    [{ Title := "un", Note := "nn" }]
  exact ⟨h1, h2 0 (by decide), h3 0 (by decide)⟩

/-- C9: the `Motivation` field of every note produced by `addNotes` is the
empty string, for every input. -/
theorem addNotes_motivation_empty (url : String) (alerts : List Alert)
    (notes : List UsageNote) (n : Note) (h : n ∈ addNotes url alerts notes) :
    n.Motivation = "" := by
  rw [addNotes] at h
  rcases List.mem_append.mp h with hm | hm <;>
    · obtain ⟨x, -, rfl⟩ := List.mem_map.mp hm
      rfl

/-- C9 witness. -/
theorem addNotes_motivation_empty_witness :
    ({ type' := "alert", Target := "u", Body := "d", Motivation := "" } : Note) ∈
        addNotes "u" [{ type' := "alert", Description := "d" }] [] ∧
      ({ type' := "alert", Target := "u", Body := "d", Motivation := "" } : Note).Motivation
        = "" :=
  ⟨by decide,
   addNotes_motivation_empty "u" [{ type' := "alert", Description := "d" }] [] _ (by decide)⟩

/-- C5: for a metadata document with a non-empty contacts list,
`assignTopLevel` is a pure 1:1 field copy — URL, title, description,
issued date, theme, license and frequency are copied byte-for-byte, the
creator is built from the publisher's name, type and HRef, the contact is
the first contacts entry, and the context is the constant CSVW namespace
URL. -/
theorem assignTopLevel_copies (m : Metadata) (c : ContactDetails)
    (rest : List ContactDetails) (h : m.Contacts = c :: rest) :
    ∃ doc, assignTopLevel (some m) = .ok doc ∧
      doc.Context = "http://www.w3.org/ns/csvw" ∧
      doc.URL = m.Downloads.CSV.HRef ∧
      doc.Title = m.Title ∧
      doc.Description = m.Description ∧
      doc.Issued = m.ReleaseDate ∧
      doc.Theme = m.Theme ∧
      doc.License = m.License ∧
      doc.Frequency = m.ReleaseFrequency ∧
      doc.Contact = c ∧
      doc.Creator.Name = m.Publisher.Name ∧
      doc.Creator.type' = m.Publisher.type' ∧
      doc.Creator.ID = m.Publisher.HRef := by
  refine ⟨_, by rw [assignTopLevel, h], rfl, rfl, rfl, rfl, rfl, rfl, rfl, rfl, rfl,
    rfl, rfl, rfl⟩

/-- C5 witness. -/
theorem assignTopLevel_copies_witness :
    ∃ doc,
      assignTopLevel (some
          { Title := "t", Description := "de", ReleaseDate := "2020", Theme := "th"
            License := "li", ReleaseFrequency := "fr", UnitOfMeasure := "un"
            Contacts := [{ Email := "e", Name := "n", Telephone := "p" }]
            Publisher := { HRef := "ph", Name := "pn", type' := "pt" }
            Dimensions := [], Downloads := { CSV := { HRef := "http://d.csv" } }
            Alerts := none, UsageNotes := none }) = .ok doc ∧
        doc.Context = "http://www.w3.org/ns/csvw" ∧
        doc.URL = "http://d.csv" ∧
        doc.Title = "t" ∧
        doc.Description = "de" ∧
        doc.Issued = "2020" ∧
        doc.Theme = "th" ∧
        doc.License = "li" ∧
        doc.Frequency = "fr" ∧
        doc.Contact = { Email := "e", Name := "n", Telephone := "p" } ∧
        doc.Creator.Name = "pn" ∧
        doc.Creator.type' = "pt" ∧
        doc.Creator.ID = "ph" :=
  assignTopLevel_copies
    { Title := "t", Description := "de", ReleaseDate := "2020", Theme := "th"
      License := "li", ReleaseFrequency := "fr", UnitOfMeasure := "un"
      Contacts := [{ Email := "e", Name := "n", Telephone := "p" }]
      Publisher := { HRef := "ph", Name := "pn", type' := "pt" }
      Dimensions := [], Downloads := { CSV := { HRef := "http://d.csv" } }
      Alerts := none, UsageNotes := none }
    { Email := "e", Name := "n", Telephone := "p" } [] rfl

/-- C6: `assignTopLevel` panics exactly when the contacts list is empty,
and otherwise sets the CSVW `Contact` field to the first contacts entry. -/
theorem assignTopLevel_contact_policy (m : Metadata) :
    ((∃ e, assignTopLevel (some m) = .error e) ↔ m.Contacts = []) ∧
    ∀ c rest, m.Contacts = c :: rest →
      ∃ doc, assignTopLevel (some m) = .ok doc ∧ doc.Contact = c := by
  constructor
  · constructor
    · intro ⟨e, he⟩
      by_contra hne
      obtain ⟨c, rest, hc⟩ := List.exists_cons_of_ne_nil hne
      rw [assignTopLevel, hc] at he
      exact Except.noConfusion he
    · intro hc
      exact ⟨.indexOutOfRange, by rw [assignTopLevel, hc]⟩
  · intro c rest hc
    exact ⟨_, by rw [assignTopLevel, hc], rfl⟩

/-- C6 witness. -/
theorem assignTopLevel_contact_policy_witness :
    ∃ doc,
      assignTopLevel (some
          { Title := "", Description := "", ReleaseDate := "", Theme := ""
            License := "", ReleaseFrequency := "", UnitOfMeasure := ""
            Contacts := [{ Email := "a", Name := "b", Telephone := "c" }]
            Publisher := { HRef := "", Name := "", type' := "" }
            Dimensions := [], Downloads := { CSV := { HRef := "" } }
            Alerts := none, UsageNotes := none }) = .ok doc ∧
        doc.Contact = { Email := "a", Name := "b", Telephone := "c" } :=
  (assignTopLevel_contact_policy
      { Title := "", Description := "", ReleaseDate := "", Theme := ""
        License := "", ReleaseFrequency := "", UnitOfMeasure := ""
        Contacts := [{ Email := "a", Name := "b", Telephone := "c" }]
        Publisher := { HRef := "", Name := "", type' := "" }
        Dimensions := [], Downloads := { CSV := { HRef := "" } }
        Alerts := none, UsageNotes := none }).2
    { Email := "a", Name := "b", Telephone := "c" } [] rfl

/-- C7 counterexample: a failed body read is a third behaviour outside the
claimed two tiers — `getMetadata` neither aborts the process nor returns a
(zero-valued) metadata document; it returns the nil pointer. -/
theorem getMetadata_read_error_third_tier :
    getMetadata FetchOutcome.readError (fun _ => none) = GetResult.ret none ∧
    GetResult.ret (none : Option Metadata) ≠ GetResult.fatal ∧
    GetResult.ret (none : Option Metadata) ≠ GetResult.ret (some zeroMetadata) := by
  refine ⟨rfl, by decide, by decide⟩

/-- C7 amended: request-construction and transport failures are fatal and
a JSON decode failure is non-fatal (logged, returning the zero-valued
document, with no further error signal); additionally, a body-read
failure is a third, unclaimed behaviour that returns the nil pointer. -/
theorem getMetadata_failure_policy (dec1 dec2 : String → Option Metadata)
    (s t : String) (m : Metadata) (h1 : dec1 s = none) (h2 : dec2 t = some m) :
    getMetadata .reqError dec1 = .fatal ∧
    getMetadata .doError dec1 = .fatal ∧
    getMetadata .readError dec1 = .ret none ∧
    getMetadata (.body s) dec1 = .ret (some zeroMetadata) ∧
    getMetadata (.body t) dec2 = .ret (some m) := by
  refine ⟨rfl, rfl, rfl, ?_, ?_⟩
  · rw [getMetadata, h1]
  · rw [getMetadata, h2]

/-- C7 amended witness. -/
theorem getMetadata_failure_policy_witness :
    getMetadata .reqError (fun _ => none) = .fatal ∧
    getMetadata .doError (fun _ => none) = .fatal ∧
    getMetadata .readError (fun _ => none) = .ret none ∧
    getMetadata (.body "") (fun _ => none) = .ret (some zeroMetadata) ∧
    getMetadata (.body "") (fun _ => some zeroMetadata) = .ret (some zeroMetadata) :=
  getMetadata_failure_policy (fun _ => none) (fun _ => some zeroMetadata) "" ""
    zeroMetadata rfl rfl

/-- C10: when reading the HTTP response body fails after a successful
request, `getMetadata` returns the nil pointer (neither aborting nor
returning a zero-valued document), and the crash happens only when
`assignTopLevel` dereferences that nil pointer. -/
theorem read_error_nil_flows_to_assign (decode : String → Option Metadata) :
    getMetadata .readError decode = .ret none ∧
    GetResult.ret (none : Option Metadata) ≠ GetResult.fatal ∧
    GetResult.ret (none : Option Metadata) ≠ GetResult.ret (some zeroMetadata) ∧
    assignTopLevel none = .error .nilDereference := by
  refine ⟨rfl, by decide, by decide, rfl⟩


theorem columnValue_roundtrip (v : ColumnValue) :
    ColumnValue.fromJson (ColumnValue.toJson v) = some v := by
  cases v <;> rfl

theorem traverseOpt_map_roundtrip {α β : Type} (f : α → β) (g : β → Option α)
    (l : List α) (h : ∀ x ∈ l, g (f x) = some x) :
    traverseOpt g (l.map f) = some l := by
  induction l with
  | nil => rfl
  | cons x xs ih =>
    simp only [List.map_cons, traverseOpt, h x (by simp)]
    rw [ih fun y hy => h y (by simp [hy])]

theorem column_roundtrip (c : Column) : columnFromJson (columnToJson c) = some c := by
  show traverseOpt _ (c.map _) = some c
  apply traverseOpt_map_roundtrip
  intro kv _
  show (match ColumnValue.fromJson (ColumnValue.toJson kv.2) with
        | some v => some (kv.1, v)
        | none => none) = some kv
  rw [columnValue_roundtrip]

theorem note_roundtrip (n : Note) : noteFromJson (noteToJson n) = some n := rfl

theorem contact_roundtrip (c : ContactDetails) :
    contactFromJson (contactToJson c) = some c := rfl

theorem creator_roundtrip (c : Creator) : creatorFromJson (creatorToJson c) = some c := rfl

theorem columns_roundtrip (cs : Columns) :
    columnsFromJson (columnsToJson cs) = some cs := by
  show (match traverseOpt columnFromJson (cs.C.map columnToJson) with
        | some cols => some { C := cols, About := cs.About }
        | none => none) = some cs
  rw [traverseOpt_map_roundtrip columnToJson columnFromJson cs.C fun x _ => column_roundtrip x]

/-- C8: marshaling the CSVW document to JSON and parsing it back yields a
document all of whose fields equal the originals — for every document, in
particular the produced one.  The embedding is pure and the document is
never mutated after construction, so repeated serialization of the same
document is byte-identical by construction. -/
theorem csvw_roundtrip (c : CSVW) : csvwFromJson (csvwToJson c) = some c := by
  have h1 := traverseOpt_map_roundtrip columnToJson columnFromJson c.TableSchema.C
    fun x _ => column_roundtrip x
  have h2 := traverseOpt_map_roundtrip noteToJson noteFromJson c.Notes
    fun x _ => note_roundtrip x
  simp [csvwToJson, csvwFromJson, getStr, jLookup, getCreator, getContact, getSchema,
    getNotes, creatorToJson, creatorFromJson, contactToJson, contactFromJson,
    columnsToJson, columnsFromJson, h1, h2]

end Ashe
